import Mathlib

/-!
Shallow embedding of the Zephyr touchscreen driver
(`drivers/input/touchscreen/zephyr.c`): the frame decoder (`newPacket`),
the transaction engine (`readFrameLength`, `readResultData`, `readFrame`,
`getReportInfo`, `getReport`, `determineInterfaceVersion`), the firmware
loaders (`loadASpeedFirmware`, `loadMainFirmware`, `verifyUpload`), the
geometry computation of `zephyr_setup`, and the `min_pressure` sysfs store.

Byte buffers (`u8*`) are modelled as functions `Nat -> Nat` holding byte
values; multi-byte struct fields are read little-endian at the offsets the
ARM target gives the C structs (`MTFrameHeader`, `FingerData`).  The SPI
transport is an oracle giving the bytes received on the k-th exchange.
-/

namespace Zephyr

/-- A byte memory (a `u8*` buffer): each address holds one byte.
    Writers store values mod 256; readers normalize mod 256. -/
abbrev Mem := Nat → Nat

def readByte (m : Mem) (i : Nat) : Nat := m i % 256

def writeByte (m : Mem) (i v : Nat) : Mem := fun j => if j = i then v % 256 else m j

/-- Little-endian `u16` field read, as the (little-endian ARM) target
    reads a `u16` struct member at byte offset `i`. -/
def readU16 (m : Mem) (i : Nat) : Nat := readByte m i + 256 * readByte m (i + 1)

/-- Little-endian `u16` field write. -/
def writeU16 (m : Mem) (i v : Nat) : Mem :=
  writeByte (writeByte m i (v % 256)) (i + 1) (v / 256 % 256)

/-- An `s16` field read: two's-complement interpretation of the 16-bit value. -/
def readS16 (m : Mem) (i : Nat) : Int :=
  if readU16 m i < 32768 then (readU16 m i : Int) else (readU16 m i : Int) - 65536

/-- `MAX_FINGER_ORIENTATION` in the source. -/
def MAX_FINGER_ORIENTATION : Int := 16384

/-- One event handed to the input core: `input_report_abs` calls are the
    per-axis constructors, `mtSync` is `input_mt_sync`, `btnTouch` is
    `input_report_key(BTN_TOUCH, _)`, `sync` is `input_sync`. -/
inductive Event
  | touchMajor (v : Int)
  | touchMinor (v : Int)
  | widthMajor (v : Int)
  | widthMinor (v : Int)
  | orient (v : Int)
  | trackingId (v : Int)
  | posX (v : Int)
  | posY (v : Int)
  | mtSync
  | absX (v : Int)
  | absY (v : Int)
  | btnTouch (pressed : Bool)
  | sync
deriving DecidableEq, Repr

/-- Recognizer for the legacy single-touch X report. -/
def isAbsX : Event → Bool
  | Event.absX _ => true
  | _ => false

/-- The pressure-floor subtraction applied to each force field:
    `if (f > min_pressure) f -= min_pressure; else f = 0;`. -/
def applyFloor (minPressure v : Nat) : Nat :=
  if minPressure < v then v - minPressure else 0

/-- One iteration of the per-finger loop of `newPacket`.  `base` is the byte
    offset of the current `FingerData` record; field offsets follow the C
    struct layout (x at +4, y at +6, size_major at +12, size_minor at +14,
    orientation at +16, force_major at +18, force_minor at +20).  The floored
    forces are written back to the buffer (the C code mutates the record in
    place); an observation is emitted only if a floored force is positive;
    `input_mt_sync` is always emitted. -/
def fingerStep (minPressure : Nat) (sensorHeight : Int) (m : Mem) (base : Nat) :
    List Event × Mem :=
  let fMajor' := applyFloor minPressure (readU16 m (base + 18))
  let m1 := writeU16 m (base + 18) fMajor'
  let fMinor' := applyFloor minPressure (readU16 m1 (base + 20))
  let m2 := writeU16 m1 (base + 20) fMinor'
  let evs :=
    if 0 < fMajor' ∨ 0 < fMinor' then
      [Event.touchMajor (fMajor' : Int), Event.touchMinor (fMinor' : Int),
       Event.widthMajor (readU16 m2 (base + 12) : Int),
       Event.widthMinor (readU16 m2 (base + 14) : Int),
       Event.orient (MAX_FINGER_ORIENTATION - (readU16 m2 (base + 16) : Int)),
       Event.trackingId (readByte m2 base : Int),
       Event.posX (readS16 m2 (base + 4)),
       Event.posY (sensorHeight - readS16 m2 (base + 6)),
       Event.mtSync]
    else [Event.mtSync]
  (evs, m2)

/-- The per-finger loop of `newPacket`: `n` fingers remaining, cursor at
    `base`, advancing by the protocol-supplied stride `fingerDataLen`. -/
def fingerLoop (minPressure : Nat) (sensorHeight : Int) (stride : Nat) :
    Nat → Nat → Mem → List Event × Mem
  | 0, _, m => ([], m)
  | n + 1, base, m =>
    let r := fingerStep minPressure sensorHeight m base
    let rest := fingerLoop minPressure sensorHeight stride n (base + stride) r.2
    (r.1 ++ rest.1, rest.2)

/-- `newPacket`: decode the frame whose `MTFrameHeader` starts at offset `d`
    of memory `m` (headerLen at `d+2`, numFingers at `d+16`, fingerDataLen at
    `d+17`).  After the finger loop the first finger record is re-inspected
    (from the mutated buffer): if its minor force is positive a legacy
    single-touch report is emitted with `BTN_TOUCH` active iff `size_minor`
    is positive, else `BTN_TOUCH` 0.  A final `input_sync` closes the batch. -/
def newPacket (minPressure : Nat) (sensorHeight : Int) (m : Mem) (d : Nat) :
    List Event × Mem :=
  let headerLen := readByte m (d + 2)
  let numFingers := readByte m (d + 16)
  let stride := readByte m (d + 17)
  let base := d + headerLen
  let r := fingerLoop minPressure sensorHeight stride numFingers base m
  let tail :=
    if 0 < numFingers then
      if 0 < readU16 r.2 (base + 20) then
        [Event.absX (readS16 r.2 (base + 4)),
         Event.absY (sensorHeight - readS16 r.2 (base + 6)),
         Event.btnTouch (decide (0 < readU16 r.2 (base + 14)))]
      else [Event.btnTouch false]
    else []
  (r.1 ++ tail ++ [Event.sync], r.2)

/-! ## Transport and transaction engine -/

/-- The SPI transport oracle: the bytes the device puts on the wire during
    the k-th exchange (`mt_txrx` / `mt_tx` call, counted in order). -/
abbrev Env := Nat → List Nat

/-- Byte `i` of the response received on exchange `k` (a `u8`). -/
def rxByte (env : Env) (k i : Nat) : Nat := (env k).getD i 0 % 256

/-- The driver session state the modelled functions touch: the alternating
    poll token `CurNOP`, the persistent `InputPacket` receive buffer, and a
    count of SPI exchanges performed so far. -/
structure DriverState where
  curNOP : Nat
  inputPacket : Mem
  xferCount : Nat

/-- `mt_txrx` into `InputPacket`: the first `inLen` bytes of the buffer are
    overwritten with the response; bytes beyond keep their prior contents. -/
def txrxIn (env : Env) (s : DriverState) (inLen : Nat) : DriverState :=
  { s with
    inputPacket := fun i => if i < inLen then rxByte env s.xferCount i else s.inputPacket i,
    xferCount := s.xferCount + 1 }

/-- A send-only `mt_tx` (or an exchange whose response is ignored). -/
def mt_tx (s : DriverState) : DriverState := { s with xferCount := s.xferCount + 1 }

/-- `sendExecutePacket`: one exchange, response ignored. -/
def sendExecutePacket (s : DriverState) : DriverState := mt_tx s

/-- `sendBlankDataPacket`: one exchange, response ignored. -/
def sendBlankDataPacket (s : DriverState) : DriverState := mt_tx s

/-- `CurNOP` flip performed after a successful nonzero-length frame read. -/
def flipNOP (x : Nat) : Nat := if x = 0x64 then 0x65 else 0x64

/-- The validation `readFrameLength` performs on one 8-byte response `b`:
    sync byte `0xAA`, header-pair checksum `(b4 + b5) & 0xFFFF` against the
    big-endian word at bytes 6..7, and the length bound; returns the decoded
    length on success. -/
def frameLenCheck (maxPacketSize : Nat) (b : Nat → Nat) : Option Nat :=
  if b 0 ≠ 0xAA then none
  else if (b 4 + b 5) % 65536 ≠ b 6 * 256 + b 7 then none
  else if maxPacketSize < b 4 * 256 + b 5 then none
  else some (b 4 * 256 + b 5)

/-- The retry loop of `readFrameLength` (`for(try = 0; try < 4; ++try)`). -/
def readFrameLengthAux (env : Env) (maxPacketSize : Nat) :
    Nat → DriverState → Option Nat × DriverState
  | 0, s => (none, s)
  | t + 1, s =>
    match frameLenCheck maxPacketSize (rxByte env s.xferCount) with
    | some tLen => (some tLen, mt_tx s)
    | none => readFrameLengthAux env maxPacketSize t (mt_tx s)

def readFrameLength (env : Env) (maxPacketSize : Nat) (s : DriverState) :
    Option Nat × DriverState :=
  readFrameLengthAux env maxPacketSize 4 s

/-- Sum of the bytes of `m` at offsets `lo`, `lo+1`, ..., `hi-1`. -/
def sumBytes (m : Mem) (lo hi : Nat) : Nat :=
  ((List.range (hi - lo)).map fun j => readByte m (lo + j)).sum

/-- The retry loop of `readResultData`: receive `len` bytes into
    `InputPacket`, require sync byte `0xAA`, compare the byte-sum of
    `InputPacket[1 .. len-2)` (16-bit wrapped) with the big-endian word in
    the last two bytes, and on success decode via `newPacket` at offset 1. -/
def readResultDataAux (env : Env) (minPressure : Nat) (sensorHeight : Int) (len : Nat) :
    Nat → DriverState → Bool × List Event × DriverState
  | 0, s => (false, [], s)
  | t + 1, s =>
    let s' := txrxIn env s len
    if readByte s'.inputPacket 0 ≠ 0xAA then
      readResultDataAux env minPressure sensorHeight len t s'
    else if sumBytes s'.inputPacket 1 (len - 2) % 65536 ≠
        readByte s'.inputPacket (len - 2) * 256 + readByte s'.inputPacket (len - 1) then
      readResultDataAux env minPressure sensorHeight len t s'
    else
      let r := newPacket minPressure sensorHeight s'.inputPacket 1
      (true, r.1, { s' with inputPacket := r.2 })

def readResultData (env : Env) (minPressure : Nat) (sensorHeight : Int) (len : Nat)
    (s : DriverState) : Bool × List Event × DriverState :=
  readResultDataAux env minPressure sensorHeight len 4 s

/-- The outer retry loop of `readFrame`: get the frame length (zero length
    returns 0, "no data"); on nonzero length read `len + 1` bytes of frame
    data, flip `CurNOP` and return 1; on sub-failure retry the whole pair;
    exhaustion returns -1. -/
def readFrameAux (env : Env) (maxPacketSize minPressure : Nat) (sensorHeight : Int) :
    Nat → DriverState → Int × List Event × DriverState
  | 0, s => (-1, [], s)
  | t + 1, s =>
    match readFrameLength env maxPacketSize s with
    | (none, s1) => readFrameAux env maxPacketSize minPressure sensorHeight t s1
    | (some 0, s1) => (0, [], s1)
    | (some (n + 1), s1) =>
      let rd := readResultData env minPressure sensorHeight (n + 1 + 1) s1
      if rd.1 then
        (1, rd.2.1, { rd.2.2 with curNOP := flipNOP rd.2.2.curNOP })
      else readFrameAux env maxPacketSize minPressure sensorHeight t rd.2.2

def readFrame (env : Env) (maxPacketSize minPressure : Nat) (sensorHeight : Int)
    (s : DriverState) : Int × List Event × DriverState :=
  readFrameAux env maxPacketSize minPressure sensorHeight 4 s

/-- `N` consecutive `readFrame` cycles; returns the final state and the list
    of per-cycle results. -/
def runFrames (env : Env) (maxPacketSize minPressure : Nat) (sensorHeight : Int) :
    Nat → DriverState → DriverState × List Int
  | 0, s => (s, [])
  | n + 1, s =>
    let r := readFrame env maxPacketSize minPressure sensorHeight s
    let rest := runFrames env maxPacketSize minPressure sensorHeight n r.2.2
    (rest.1, r.1 :: rest.2)

/-- The validation `getReportInfo` performs on one 8-byte response `b`:
    sync byte, then `(id + b4 + b5) & 0xFFFF` against the big-endian word at
    bytes 6..7; returns the 4-bit error code and 12-bit length. -/
def reportInfoCheck (id : Nat) (b : Nat → Nat) : Option (Nat × Nat) :=
  if b 0 ≠ 0xAA then none
  else if b 6 * 256 + b 7 ≠ (id + b 4 + b 5) % 65536 then none
  else some (b 4 / 16 % 16, b 4 % 16 * 256 + b 5)

/-- The retry loop of `getReportInfo`. -/
def getReportInfoAux (env : Env) (id : Nat) :
    Nat → DriverState → Option (Nat × Nat) × DriverState
  | 0, s => (none, s)
  | t + 1, s =>
    match reportInfoCheck id (rxByte env s.xferCount) with
    | some r => (some r, mt_tx s)
    | none => getReportInfoAux env id t (mt_tx s)

def getReportInfo (env : Env) (id : Nat) (s : DriverState) :
    Option (Nat × Nat) × DriverState :=
  getReportInfoAux env id 4 s

/-- The retry loop of the report-data phase of `getReport`: receive
    `len + 6` bytes, require sync, compare `id + sum(bytes 4 .. 4+len)`
    (16-bit wrapped) with the big-endian word at `len+4 .. len+5`, and on
    success return the `len` payload bytes starting at offset 4. -/
def getReportAux (env : Env) (id len : Nat) :
    Nat → DriverState → Option (List Nat) × DriverState
  | 0, s => (none, s)
  | t + 1, s =>
    let s' := txrxIn env s (len + 6)
    if readByte s'.inputPacket 0 ≠ 0xAA then getReportAux env id len t s'
    else if (id + sumBytes s'.inputPacket 4 (len + 4)) % 65536 ≠
        readByte s'.inputPacket (len + 4) * 256 + readByte s'.inputPacket (len + 5) then
      getReportAux env id len t s'
    else (some ((List.range len).map fun i => readByte s'.inputPacket (4 + i)), s')

/-- `getReport`: report-info first; a failure or nonzero error code
    short-circuits with failure, otherwise the report-data loop runs. -/
def getReport (env : Env) (id : Nat) (s : DriverState) :
    Option (List Nat) × DriverState :=
  match getReportInfo env id s with
  | (none, s1) => (none, s1)
  | (some (err, len), s1) =>
    if err ≠ 0 then (none, s1)
    else getReportAux env id len 4 s1

/-- The retry loop of `determineInterfaceVersion`: a response whose first
    byte is `0xAA` yields the version (byte 1) and max packet size
    (big-endian bytes 2..3). -/
def determineInterfaceVersionAux (env : Env) :
    Nat → DriverState → Option (Nat × Nat) × DriverState
  | 0, s => (none, s)
  | t + 1, s =>
    if rxByte env s.xferCount 0 = 0xAA then
      (some (rxByte env s.xferCount 1,
             rxByte env s.xferCount 2 * 256 + rxByte env s.xferCount 3), mt_tx s)
    else determineInterfaceVersionAux env t (mt_tx s)

def determineInterfaceVersion (env : Env) (s : DriverState) :
    Option (Nat × Nat) × DriverState :=
  determineInterfaceVersionAux env 4 s

/-! ## Firmware upload -/

/-- `verifyUpload`: one 4-byte verify exchange; the response must start with
    the acknowledgement pair `0xD0 0x00` and carry the big-endian checksum
    of the just-sent data in its last two bytes. -/
def verifyUpload (env : Env) (checksum : Nat) (s : DriverState) : Bool × DriverState :=
  let b := rxByte env s.xferCount
  let s' := mt_tx s
  if b 0 ≠ 0xD0 ∨ b 1 ≠ 0 then (false, s')
  else if b 2 ≠ checksum / 256 % 256 then (false, s')
  else if b 3 ≠ checksum % 256 then (false, s')
  else (true, s')

/-- The checksum `makeBootloaderDataPacket` computes for one chunk: the sum
    of the (at most 1016) data bytes plus the 6 header bytes
    `C2 a3 a2 a1 a0 00` of the destination address. -/
def makeBootloaderChecksum (destAddress : Nat) (data : List Nat) : Nat :=
  ((data.take 1016).map fun v => v % 256).sum +
    (0xC2 + destAddress / 16777216 % 256 + destAddress / 65536 % 256 +
     destAddress / 256 % 256 + destAddress % 256 + 0)

/-- The per-chunk `(transmit, delay, verify)` retry loop of
    `loadASpeedFirmware` (`for(try = 0; try < 5; ++try)`); returns success,
    the number of attempts performed, and the state. -/
def uploadChunkAux (env : Env) (checksum : Nat) :
    Nat → DriverState → Nat → Bool × Nat × DriverState
  | 0, s, tries => (false, tries, s)
  | t + 1, s, tries =>
    let v := verifyUpload env checksum (mt_tx s)
    if v.1 then (true, tries + 1, v.2)
    else uploadChunkAux env checksum t v.2 (tries + 1)

def uploadChunk (env : Env) (checksum : Nat) (s : DriverState) :
    Bool × Nat × DriverState :=
  uploadChunkAux env checksum 5 s 0

/-- The chunk loop of `loadASpeedFirmware` (fuelled; `fw.length + 1` fuel is
    always enough since every chunk consumes at least one byte). -/
def loadASpeedGo (env : Env) : Nat → List Nat → Nat → DriverState → Bool × DriverState
  | 0, _, _, s => (true, s)
  | fuel + 1, data, address, s =>
    if data.isEmpty then (true, s)
    else
      let toUpload := min data.length 1016
      let r := uploadChunk env (makeBootloaderChecksum address data) s
      if r.1 then loadASpeedGo env fuel (data.drop toUpload) (address + toUpload) r.2.2
      else (false, r.2.2)

/-- `loadASpeedFirmware`: chunked upload starting at `0x40000000`, followed
    by one execute packet on success. -/
def loadASpeedFirmware (env : Env) (fw : List Nat) (s : DriverState) :
    Bool × DriverState :=
  let r := loadASpeedGo env (fw.length + 1) fw 0x40000000 s
  if r.1 then (true, sendExecutePacket r.2) else (false, r.2)

/-- The `(blank, transmit, verify)` retry loop of `loadMainFirmware`
    (`for(i = 0; i < 5; ++i)`); returns success, attempts, state. -/
def loadMainGo (env : Env) (checksum : Nat) :
    Nat → DriverState → Nat → Bool × Nat × DriverState
  | 0, s, tries => (false, tries, s)
  | t + 1, s, tries =>
    let v := verifyUpload env checksum (mt_tx (sendBlankDataPacket s))
    if v.1 then (true, tries + 1, v.2)
    else loadMainGo env checksum t v.2 (tries + 1)

/-- `loadMainFirmware`: byte-sum checksum over the whole image, then up to 5
    `(blank, transmit, verify)` attempts, then one execute packet. -/
def loadMainFirmware (env : Env) (fw : List Nat) (s : DriverState) :
    Bool × Nat × DriverState :=
  let r := loadMainGo env ((fw.map fun v => v % 256).sum) 5 s 0
  if r.1 then (true, r.2.1, sendExecutePacket r.2.2) else (false, r.2.1, r.2.2)

/-- The `(address, chunk length)` trace of the `loadASpeedFirmware` chunk
    loop: chunks of `min(left, 1016)` bytes at increasing addresses
    (fuelled; fuel `left` is always enough). -/
def aspeedChunksGo : Nat → Nat → Nat → List (Nat × Nat)
  | 0, _, _ => []
  | fuel + 1, address, left =>
    if left = 0 then []
    else if 1016 < left then (address, 1016) :: aspeedChunksGo fuel (address + 1016) (left - 1016)
    else [(address, left)]

def aspeedChunks (address left : Nat) : List (Nat × Nat) :=
  aspeedChunksGo left address left

/-! ## Setup geometry and the pressure-floor tunable -/

/-- `zephyr_setup` sensor width: `(9000 - raw) * 84 / 73` where `raw` is a
    `u32` field, so the whole expression is 32-bit unsigned arithmetic. -/
def sensorWidth (raw : Nat) : Nat :=
  (9000 + (4294967296 - raw % 4294967296)) % 4294967296 * 84 % 4294967296 / 73

/-- `zephyr_setup` sensor height: `(13850 - raw) * 84 / 73` in 32-bit
    unsigned arithmetic. -/
def sensorHeightOf (raw : Nat) : Nat :=
  (13850 + (4294967296 - raw % 4294967296)) % 4294967296 * 84 % 4294967296 / 73

/-- Modelled from the spec's words (for comparison): width as exact integer
    arithmetic `(9000 − raw_x) * 84 / 73` with truncating division. -/
def sensorWidthSpec (raw : Nat) : Int := Int.tdiv ((9000 - (raw : Int)) * 84) 73

/-- `zephyr_min_pressure_store`: `parsed = none` models `sscanf` matching
    nothing (the `ret <= 0` early return); otherwise values `>= 255` are
    rejected (return 0) and the stored floor is unchanged, values `<= 254`
    are stored (truncated to `u8`) and the call returns 1. -/
def zephyr_min_pressure_store (min_pressure : Nat) (parsed : Option Nat) : Nat × Int :=
  match parsed with
  | none => (min_pressure, 0)
  | some new_val =>
    if 255 ≤ new_val then (min_pressure, 0)
    else (new_val % 256, 1)

/-! ## Concrete buffers and transports used by witnesses and counterexamples -/

/-- A transport whose every exchange returns no bytes (all zeroes). -/
def envZero : Env := fun _ => []

/-- A fresh session state: poll token `0x64`, zeroed `InputPacket`. -/
def stateZero : DriverState := { curNOP := 0x64, inputPacket := fun _ => 0, xferCount := 0 }

/-- A finger record at offset 0 whose `force_major` and `force_minor` both
    equal 100 (the floor used by its witness). -/
def memC1 : Mem := fun i => if i = 18 then 100 else if i = 20 then 100 else 0

/-- A finger record at offset 0 with `force_major = 150` (above floor 100),
    so an observation is emitted. -/
def memC2 : Mem := fun i => if i = 18 then 150 else 0

/-- A frame with `headerLen = 18`, two fingers and stride 2, whose first
    finger has raw `force_minor = 150` (bytes 38..39): the second finger's
    record overlaps the first one's force fields. -/
def memC10 : Mem := fun i =>
  if i = 2 then 18 else if i = 16 then 2 else if i = 17 then 2 else
  if i = 38 then 150 else 0

/-- A frame with `headerLen = 18`, one finger with stride 28, raw
    `force_minor = 150` at bytes 38..39 (no overlap). -/
def memC10w : Mem := fun i =>
  if i = 2 then 18 else if i = 16 then 1 else if i = 17 then 28 else
  if i = 38 then 150 else 0

/-- The end-to-end transport of the spec scenario: exchange 0 answers the
    frame-length query with a frame decoding to length 16, exchange 1
    returns the 17-byte frame-data response (sync `0xAA`, frame type `0x44`,
    `headerLen = 12`, valid payload checksum 80 in its last two bytes). -/
def env8 : Env := fun k =>
  if k = 0 then [0xAA, 0, 0, 0, 0, 16, 0, 16]
  else if k = 1 then [0xAA, 0x44, 0, 12, 0, 0, 0, 0, 0, 0, 0, 0, 0, 0, 0, 0, 80]
  else []

/-- The pre-existing `InputPacket` contents for the end-to-end scenario:
    the response is only 17 bytes, so `numFingers` (buffer offset 17) and
    the finger record beyond offset 16 come from what the buffer already
    held; this realizes "1 finger at offset 12 with force_minor = 150"
    (finger base 13 in the buffer, `force_minor` at bytes 33..34). -/
def mem8 : Mem := fun i => if i = 17 then 1 else if i = 33 then 150 else 0

/-- The session state for the end-to-end scenario. -/
def s8 : DriverState := { curNOP := 0x64, inputPacket := mem8, xferCount := 0 }

/-- An 8-byte control-frame response that both `readFrameLength` and
    `getReportInfo` (with id 0) accept: sync byte, all payload zero. -/
def bC5 : Nat → Nat := fun i => if i = 0 then 0xAA else 0

/-! ## Corruption and transport stubs -/

/-- Flip byte `i` of a response to the value `v`. -/
def corrupt (b : Nat → Nat) (i v : Nat) : Nat → Nat := fun j => if j = i then v else b j

/-- A transport whose every response carries a bad sync byte (never the
    `0xAA` sentinel, nor the `0xD0` verify acknowledgement). -/
def BadSync (env : Env) : Prop := ∀ k, rxByte env k 0 ≠ 0xAA ∧ rxByte env k 0 ≠ 0xD0

/-! ## Memory lemmas -/

lemma readByte_writeByte_ne (m : Mem) (i v j : Nat) (h : j ≠ i) :
    readByte (writeByte m i v) j = readByte m j := by
  simp [readByte, writeByte, h]

lemma readByte_writeByte_self (m : Mem) (i v : Nat) :
    readByte (writeByte m i v) i = v % 256 := by
  unfold readByte writeByte
  rw [if_pos rfl]
  omega

lemma readByte_writeU16_ne (m : Mem) (i v j : Nat) (h1 : j ≠ i) (h2 : j ≠ i + 1) :
    readByte (writeU16 m i v) j = readByte m j := by
  simp [writeU16, readByte_writeByte_ne, h1, h2]

lemma readU16_writeU16_ne (m : Mem) (i v j : Nat) (h1 : j ≠ i) (h2 : j ≠ i + 1)
    (h3 : j + 1 ≠ i) (h4 : j + 1 ≠ i + 1) :
    readU16 (writeU16 m i v) j = readU16 m j := by
  simp [readU16, readByte_writeU16_ne, h1, h2, h3, h4]

lemma readS16_writeU16_ne (m : Mem) (i v j : Nat) (h1 : j ≠ i) (h2 : j ≠ i + 1)
    (h3 : j + 1 ≠ i) (h4 : j + 1 ≠ i + 1) :
    readS16 (writeU16 m i v) j = readS16 m j := by
  simp [readS16, readU16_writeU16_ne, h1, h2, h3, h4]

lemma readU16_writeU16_self (m : Mem) (i v : Nat) (hv : v < 65536) :
    readU16 (writeU16 m i v) i = v := by
  have h1 : i ≠ i + 1 := by omega
  simp only [readU16, writeU16]
  rw [readByte_writeByte_ne _ _ _ _ h1, readByte_writeByte_self,
      readByte_writeByte_self]
  omega

lemma readU16_lt (m : Mem) (i : Nat) : readU16 m i < 65536 := by
  unfold readU16 readByte
  omega

/-! ## Frame-decoder lemmas -/

lemma applyFloor_le (p v : Nat) : applyFloor p v ≤ v := by
  unfold applyFloor
  split <;> omega

lemma applyFloor_pos_iff (p v : Nat) : 0 < applyFloor p v ↔ p < v := by
  unfold applyFloor
  split <;> omega

lemma readByte_floorWrites (m : Mem) (base a b j : Nat) (hj : j < base + 18) :
    readByte (writeU16 (writeU16 m (base + 18) a) (base + 20) b) j = readByte m j := by
  rw [readByte_writeU16_ne _ _ _ _ (by omega) (by omega),
      readByte_writeU16_ne _ _ _ _ (by omega) (by omega)]

lemma readU16_floorWrites (m : Mem) (base a b j : Nat) (hj : j + 1 < base + 18) :
    readU16 (writeU16 (writeU16 m (base + 18) a) (base + 20) b) j = readU16 m j := by
  unfold readU16
  rw [readByte_floorWrites m base a b j (by omega),
      readByte_floorWrites m base a b (j + 1) (by omega)]

lemma readS16_floorWrites (m : Mem) (base a b j : Nat) (hj : j + 1 < base + 18) :
    readS16 (writeU16 (writeU16 m (base + 18) a) (base + 20) b) j = readS16 m j := by
  unfold readS16
  rw [readU16_floorWrites m base a b j hj]

lemma fingerStep_minor_read (m : Mem) (base a : Nat) :
    readU16 (writeU16 m (base + 18) a) (base + 20) = readU16 m (base + 20) :=
  readU16_writeU16_ne _ _ _ _ (by omega) (by omega) (by omega) (by omega)

/-- The events of one finger iteration, with every field read expressed on
    the pre-iteration memory (the floor writes only touch bytes
    `base+18 .. base+21`). -/
lemma fingerStep_events (minP : Nat) (H : Int) (m : Mem) (base : Nat) :
    (fingerStep minP H m base).1 =
      if 0 < applyFloor minP (readU16 m (base + 18)) ∨
          0 < applyFloor minP (readU16 m (base + 20)) then
        [Event.touchMajor (applyFloor minP (readU16 m (base + 18)) : Int),
         Event.touchMinor (applyFloor minP (readU16 m (base + 20)) : Int),
         Event.widthMajor (readU16 m (base + 12) : Int),
         Event.widthMinor (readU16 m (base + 14) : Int),
         Event.orient (MAX_FINGER_ORIENTATION - (readU16 m (base + 16) : Int)),
         Event.trackingId (readByte m base : Int),
         Event.posX (readS16 m (base + 4)),
         Event.posY (H - readS16 m (base + 6)),
         Event.mtSync]
      else [Event.mtSync] := by
  simp only [fingerStep, fingerStep_minor_read]
  rw [readU16_floorWrites m base _ _ (base + 12) (by omega),
      readU16_floorWrites m base _ _ (base + 14) (by omega),
      readU16_floorWrites m base _ _ (base + 16) (by omega),
      readByte_floorWrites m base _ _ base (by omega),
      readS16_floorWrites m base _ _ (base + 4) (by omega),
      readS16_floorWrites m base _ _ (base + 6) (by omega)]

/-- The memory left by one finger iteration. -/
lemma fingerStep_mem (minP : Nat) (H : Int) (m : Mem) (base : Nat) :
    (fingerStep minP H m base).2 =
      writeU16 (writeU16 m (base + 18) (applyFloor minP (readU16 m (base + 18))))
        (base + 20) (applyFloor minP (readU16 m (base + 20))) := by
  simp only [fingerStep, fingerStep_minor_read]

lemma fingerStep_preserves_below (minP : Nat) (H : Int) (m : Mem) (base i : Nat)
    (hi : i < base + 18) :
    readByte (fingerStep minP H m base).2 i = readByte m i := by
  rw [fingerStep_mem]
  exact readByte_floorWrites m base _ _ i hi

lemma fingerLoop_preserves_below (minP : Nat) (H : Int) (stride : Nat) :
    ∀ (n base i : Nat) (m : Mem), i < base + 18 →
      readByte (fingerLoop minP H stride n base m).2 i = readByte m i := by
  intro n
  induction n with
  | zero => intro base i m _; rfl
  | succ n ih =>
    intro base i m hi
    simp only [fingerLoop]
    rw [ih (base + stride) i _ (by omega), fingerStep_preserves_below _ _ _ _ _ hi]

lemma fingerStep_no_absX (minP : Nat) (H : Int) (m : Mem) (base : Nat) :
    (fingerStep minP H m base).1.any isAbsX = false := by
  rw [fingerStep_events]
  split <;> simp [isAbsX]

lemma fingerLoop_no_absX (minP : Nat) (H : Int) (stride : Nat) :
    ∀ (n base : Nat) (m : Mem), (fingerLoop minP H stride n base m).1.any isAbsX = false := by
  intro n
  induction n with
  | zero => intro base m; rfl
  | succ n ih =>
    intro base m
    simp only [fingerLoop, List.any_append]
    rw [fingerStep_no_absX, ih]
    rfl

/-! ## Claim theorems: frame decoder -/

/-- C1: with pressure floor `F`, a finger arriving with
    `force_major = F` and `force_minor = F` produces no positional
    observation (both forces floor to zero) but still yields its
    `input_mt_sync` end-of-contact marker; a finger arriving with
    `force_major = F + 1` has emitted major force 1; and the loop advances
    the decode cursor by exactly the per-finger stride. -/
theorem C1_frame_decode_pressure_floor (F : Nat) (sensorHeight : Int) (m : Mem)
    (base stride n : Nat)
    (hM : readU16 m (base + 18) = F) (hm : readU16 m (base + 20) = F) :
    (fingerStep F sensorHeight m base).1 = [Event.mtSync]
  ∧ (∀ m2 : Mem, readU16 m2 (base + 18) = F + 1 →
      ∃ rest, (fingerStep F sensorHeight m2 base).1 = Event.touchMajor 1 :: rest)
  ∧ (fingerLoop F sensorHeight stride (n + 1) base m).1 =
      (fingerStep F sensorHeight m base).1 ++
        (fingerLoop F sensorHeight stride n (base + stride)
          (fingerStep F sensorHeight m base).2).1 := by
  have hz : applyFloor F F = 0 := by unfold applyFloor; split <;> omega
  have ho : applyFloor F (F + 1) = 1 := by unfold applyFloor; split <;> omega
  refine ⟨?_, ?_, ?_⟩
  · rw [fingerStep_events, hM, hm, hz]
    simp
  · intro m2 h2
    rw [fingerStep_events, h2, ho]
    rw [if_pos (Or.inl Nat.one_pos)]
    exact ⟨_, rfl⟩
  · rfl

/-- C1 witness: a concrete finger with both forces at the floor value 100
    yields only the end-of-contact marker. -/
theorem C1_frame_decode_pressure_floor_witness :
    readU16 memC1 18 = 100 ∧ readU16 memC1 20 = 100 ∧
    (fingerStep 100 500 memC1 0).1 = [Event.mtSync] :=
  ⟨by decide, by decide,
   (C1_frame_decode_pressure_floor 100 500 memC1 0 28 0 (by decide) (by decide)).1⟩

/-- C2: whenever a positional observation is emitted for a finger, the
    emitted Y equals `sensorHeight − rawY`, the emitted orientation equals
    `16384 − rawOrientation`, and the emitted X is the raw X unchanged. -/
theorem C2_coordinate_transforms (minPressure : Nat) (sensorHeight : Int) (m : Mem)
    (base : Nat)
    (hobs : (fingerStep minPressure sensorHeight m base).1 ≠ [Event.mtSync]) :
    Event.posY (sensorHeight - readS16 m (base + 6)) ∈
      (fingerStep minPressure sensorHeight m base).1
  ∧ Event.orient (16384 - (readU16 m (base + 16) : Int)) ∈
      (fingerStep minPressure sensorHeight m base).1
  ∧ Event.posX (readS16 m (base + 4)) ∈
      (fingerStep minPressure sensorHeight m base).1 := by
  rw [fingerStep_events] at hobs ⊢
  by_cases hc : 0 < applyFloor minPressure (readU16 m (base + 18)) ∨
      0 < applyFloor minPressure (readU16 m (base + 20))
  · rw [if_pos hc]
    refine ⟨?_, ?_, ?_⟩ <;> simp [MAX_FINGER_ORIENTATION]
  · rw [if_neg hc] at hobs
    exact absurd rfl hobs

/-- C2 witness: a concrete finger above the floor emits the transformed
    coordinates. -/
theorem C2_coordinate_transforms_witness :
    (fingerStep 100 500 memC2 0).1 ≠ [Event.mtSync] ∧
    Event.posY (500 - readS16 memC2 6) ∈ (fingerStep 100 500 memC2 0).1 :=
  ⟨by decide, (C2_coordinate_transforms 100 500 memC2 0 (by decide)).1⟩

lemma fingerLoop_preserves_below16 (minP : Nat) (H : Int) (stride n base i : Nat)
    (m : Mem) (hi : i + 1 < base + 18) :
    readU16 (fingerLoop minP H stride n base m).2 i = readU16 m i := by
  unfold readU16
  rw [fingerLoop_preserves_below _ _ _ n base i m (by omega),
      fingerLoop_preserves_below _ _ _ n base (i + 1) m (by omega)]

/-- C10 (amended): when the per-finger stride is at least 4 (so no later
    finger's force write overlaps the first record's `force_minor` bytes),
    the legacy single-touch position report is emitted iff the first
    finger's raw `force_minor` exceeds the pressure floor, and otherwise a
    `BTN_TOUCH = 0` report is emitted. -/
theorem C10_legacy_touch_amended (minPressure : Nat) (sensorHeight : Int) (m : Mem) (d : Nat)
    (hn : 0 < readByte m (d + 16)) (hs : 4 ≤ readByte m (d + 17)) :
    ((newPacket minPressure sensorHeight m d).1.any isAbsX = true ↔
      minPressure < readU16 m (d + readByte m (d + 2) + 20))
  ∧ (¬ minPressure < readU16 m (d + readByte m (d + 2) + 20) →
      Event.btnTouch false ∈ (newPacket minPressure sensorHeight m d).1) := by
  rcases hnf : readByte m (d + 16) with _ | k
  · omega
  have key : readU16 (fingerLoop minPressure sensorHeight (readByte m (d + 17)) (k + 1)
      (d + readByte m (d + 2)) m).2 (d + readByte m (d + 2) + 20) =
      applyFloor minPressure (readU16 m (d + readByte m (d + 2) + 20)) := by
    simp only [fingerLoop]
    rw [fingerLoop_preserves_below16 _ _ _ k _ _ _ (by omega)]
    rw [fingerStep_mem,
        readU16_writeU16_self _ _ _ (lt_of_le_of_lt (applyFloor_le _ _) (readU16_lt _ _))]
  constructor
  · simp only [newPacket, hnf]
    rw [if_pos (by omega : (0 : Nat) < k + 1), key,
        List.any_append, List.any_append, fingerLoop_no_absX]
    by_cases hc : minPressure < readU16 m (d + readByte m (d + 2) + 20)
    · rw [if_pos ((applyFloor_pos_iff _ _).2 hc)]
      simp [isAbsX, hc]
    · rw [if_neg (fun hpos => hc ((applyFloor_pos_iff _ _).1 hpos))]
      simp [isAbsX, hc]
  · intro hc
    simp only [newPacket, hnf]
    rw [if_pos (by omega : (0 : Nat) < k + 1), key,
        if_neg (fun hpos => hc ((applyFloor_pos_iff _ _).1 hpos))]
    simp

/-- C10 counterexample: a frame with two fingers of stride 2 whose first
    finger has raw `force_minor = 150` above the floor 100; the second
    record's floored `force_major` write lands on the first record's stored
    `force_minor`, so no legacy position report is emitted although the
    claim as stated demands one. -/
theorem C10_legacy_touch_cex :
    100 < readU16 memC10 (0 + readByte memC10 (0 + 2) + 20)
  ∧ (newPacket 100 500 memC10 0).1.any isAbsX = false := by decide

/-- C10 witness: one finger with stride 28, raw `force_minor = 150`,
    floor 100. -/
theorem C10_legacy_touch_amended_witness :
    0 < readByte memC10w (0 + 16) ∧ 4 ≤ readByte memC10w (0 + 17) ∧
    ((newPacket 100 500 memC10w 0).1.any isAbsX = true ↔
      100 < readU16 memC10w (0 + readByte memC10w (0 + 2) + 20)) :=
  ⟨by decide, by decide,
   (C10_legacy_touch_amended 100 500 memC10w 0 (by decide) (by decide)).1⟩

/-! ## Poll-token lemmas -/

lemma mt_tx_curNOP (s : DriverState) : (mt_tx s).curNOP = s.curNOP := rfl

lemma readFrameLengthAux_curNOP (env : Env) (mps : Nat) :
    ∀ t s, (readFrameLengthAux env mps t s).2.curNOP = s.curNOP := by
  intro t
  induction t with
  | zero => intro s; rfl
  | succ t ih =>
    intro s
    simp only [readFrameLengthAux]
    rcases frameLenCheck mps (rxByte env s.xferCount) with _ | tLen
    · exact ih (mt_tx s)
    · rfl

lemma readResultDataAux_curNOP (env : Env) (mp : Nat) (H : Int) (len : Nat) :
    ∀ t s, (readResultDataAux env mp H len t s).2.2.curNOP = s.curNOP := by
  intro t
  induction t with
  | zero => intro s; rfl
  | succ t ih =>
    intro s
    simp only [readResultDataAux]
    split
    · exact ih _
    · split
      · exact ih _
      · rfl

lemma readFrameAux_curNOP (env : Env) (mps mp : Nat) (H : Int) :
    ∀ t s, (readFrameAux env mps mp H t s).2.2.curNOP =
      if (readFrameAux env mps mp H t s).1 = 1 then flipNOP s.curNOP else s.curNOP := by
  intro t
  induction t with
  | zero =>
    intro s
    simp only [readFrameAux]
    rw [if_neg (by decide)]
  | succ t ih =>
    intro s
    simp only [readFrameAux]
    split
    · rename_i s1 heq
      have hs1 : s1.curNOP = s.curNOP := by
        have h : (readFrameLength env mps s).2.curNOP = s.curNOP :=
          readFrameLengthAux_curNOP env mps 4 s
        rw [heq] at h
        exact h
      rw [ih s1, hs1]
    · rename_i s1 heq
      have hs1 : s1.curNOP = s.curNOP := by
        have h : (readFrameLength env mps s).2.curNOP = s.curNOP :=
          readFrameLengthAux_curNOP env mps 4 s
        rw [heq] at h
        exact h
      show s1.curNOP = if (0 : Int) = 1 then flipNOP s.curNOP else s.curNOP
      rw [if_neg (by decide)]
      exact hs1
    · rename_i n s1 heq
      have hs1 : s1.curNOP = s.curNOP := by
        have h : (readFrameLength env mps s).2.curNOP = s.curNOP :=
          readFrameLengthAux_curNOP env mps 4 s
        rw [heq] at h
        exact h
      have hrd : (readResultData env mp H (n + 1 + 1) s1).2.2.curNOP = s1.curNOP :=
        readResultDataAux_curNOP env mp H (n + 1 + 1) 4 s1
      by_cases hb : (readResultData env mp H (n + 1 + 1) s1).1 = true
      · simp only [hb]
        show flipNOP (readResultData env mp H (n + 1 + 1) s1).2.2.curNOP =
          if (1 : Int) = 1 then flipNOP s.curNOP else s.curNOP
        rw [if_pos rfl, hrd, hs1]
      · have hb' : (readResultData env mp H (n + 1 + 1) s1).1 = false := by
          simpa using hb
        simp only [hb']
        show (readFrameAux env mps mp H t (readResultData env mp H (n + 1 + 1) s1).2.2).2.2.curNOP =
          if (readFrameAux env mps mp H t (readResultData env mp H (n + 1 + 1) s1).2.2).1 = 1 then
            flipNOP s.curNOP else s.curNOP
        rw [ih, hrd, hs1]

lemma readFrame_curNOP (env : Env) (mps mp : Nat) (H : Int) (s : DriverState) :
    (readFrame env mps mp H s).2.2.curNOP =
      if (readFrame env mps mp H s).1 = 1 then flipNOP s.curNOP else s.curNOP :=
  readFrameAux_curNOP env mps mp H 4 s

lemma runFrames_parity (env : Env) (mps mp : Nat) (H : Int) :
    ∀ N s, (∀ r ∈ (runFrames env mps mp H N s).2, r = 1) →
      ((s.curNOP = 0x64 →
        (runFrames env mps mp H N s).1.curNOP = if N % 2 = 0 then 0x64 else 0x65)
     ∧ (s.curNOP = 0x65 →
        (runFrames env mps mp H N s).1.curNOP = if N % 2 = 0 then 0x65 else 0x64)) := by
  intro N
  induction N with
  | zero =>
    intro s _
    constructor <;> intro h <;> simpa using h
  | succ N ih =>
    intro s hall
    simp only [runFrames] at hall ⊢
    have h1 : (readFrame env mps mp H s).1 = 1 := hall _ (List.mem_cons_self _ _)
    have hrest : ∀ r ∈ (runFrames env mps mp H N (readFrame env mps mp H s).2.2).2, r = 1 :=
      fun r hr => hall r (List.mem_cons_of_mem _ hr)
    have hflip : (readFrame env mps mp H s).2.2.curNOP = flipNOP s.curNOP := by
      rw [readFrame_curNOP, if_pos h1]
    have hih := ih (readFrame env mps mp H s).2.2 hrest
    constructor <;> intro h
    · have hstep : (readFrame env mps mp H s).2.2.curNOP = 0x65 := by
        rw [hflip, h]; rfl
      rw [hih.2 hstep]
      rcases Nat.mod_two_eq_zero_or_one N with hp | hp
      · have hp1 : (N + 1) % 2 = 1 := by omega
        rw [hp, hp1]
        simp
      · have hp1 : (N + 1) % 2 = 0 := by omega
        rw [hp, hp1]
        simp
    · have hstep : (readFrame env mps mp H s).2.2.curNOP = 0x64 := by
        rw [hflip, h]; rfl
      rw [hih.1 hstep]
      rcases Nat.mod_two_eq_zero_or_one N with hp | hp
      · have hp1 : (N + 1) % 2 = 1 := by omega
        rw [hp, hp1]
        simp
      · have hp1 : (N + 1) % 2 = 0 := by omega
        rw [hp, hp1]
        simp

lemma flipNOP_mem (x : Nat) : flipNOP x = 0x64 ∨ flipNOP x = 0x65 := by
  unfold flipNOP
  split
  · exact Or.inr rfl
  · exact Or.inl rfl

lemma runFrames_sentinel (env : Env) (mps mp : Nat) (H : Int) :
    ∀ N s, (s.curNOP = 0x64 ∨ s.curNOP = 0x65) →
      ((runFrames env mps mp H N s).1.curNOP = 0x64 ∨
       (runFrames env mps mp H N s).1.curNOP = 0x65) := by
  intro N
  induction N with
  | zero => intro s h; exact h
  | succ N ih =>
    intro s h
    simp only [runFrames]
    apply ih
    rw [readFrame_curNOP]
    split
    · exact flipNOP_mem _
    · exact h

/-- C3: starting from poll token `0x64` (as `zephyr_setup` initializes it),
    after `N` read-one-frame cycles that all return 1 (nonzero length, data
    read succeeded) the token is `0x64` for even `N` and `0x65` for odd `N`;
    a cycle that returns 0 (zero length) or -1 (retry exhaustion) leaves the
    token unchanged; and the token is always one of the two sentinels. -/
theorem C3_poll_token (env : Env) (maxPacketSize minPressure : Nat) (sensorHeight : Int)
    (s : DriverState) (N : Nat) (h0 : s.curNOP = 0x64) :
    ((∀ r ∈ (runFrames env maxPacketSize minPressure sensorHeight N s).2, r = 1) →
      (runFrames env maxPacketSize minPressure sensorHeight N s).1.curNOP =
        if N % 2 = 0 then 0x64 else 0x65)
  ∧ ((readFrame env maxPacketSize minPressure sensorHeight s).1 ≠ 1 →
      (readFrame env maxPacketSize minPressure sensorHeight s).2.2.curNOP = s.curNOP)
  ∧ ((runFrames env maxPacketSize minPressure sensorHeight N s).1.curNOP = 0x64 ∨
     (runFrames env maxPacketSize minPressure sensorHeight N s).1.curNOP = 0x65) :=
  ⟨fun hall => (runFrames_parity env maxPacketSize minPressure sensorHeight N s hall).1 h0,
   fun hne => by rw [readFrame_curNOP, if_neg hne],
   runFrames_sentinel env maxPacketSize minPressure sensorHeight N s (Or.inl h0)⟩

/-- C3 witness: three cycles against the empty transport (every cycle fails
    and returns -1); the token stays a sentinel value. -/
theorem C3_poll_token_witness :
    stateZero.curNOP = 0x64 ∧
    ((runFrames envZero 1000 100 500 3 stateZero).1.curNOP = 0x64 ∨
     (runFrames envZero 1000 100 500 3 stateZero).1.curNOP = 0x65) :=
  ⟨rfl, (C3_poll_token envZero 1000 100 500 stateZero 3 rfl).2.2⟩

/-! ## Retry-bound lemmas under a bad-sync transport -/

lemma frameLenCheck_badsync (mps : Nat) (b : Nat → Nat) (h : b 0 ≠ 0xAA) :
    frameLenCheck mps b = none := by
  simp [frameLenCheck, h]

lemma reportInfoCheck_badsync (id : Nat) (b : Nat → Nat) (h : b 0 ≠ 0xAA) :
    reportInfoCheck id b = none := by
  simp [reportInfoCheck, h]

lemma readFrameLengthAux_badsync (env : Env) (hbs : BadSync env) (mps : Nat) :
    ∀ t s, (readFrameLengthAux env mps t s).1 = none ∧
      (readFrameLengthAux env mps t s).2.xferCount = s.xferCount + t := by
  intro t
  induction t with
  | zero => intro s; exact ⟨rfl, rfl⟩
  | succ t ih =>
    intro s
    have hc := frameLenCheck_badsync mps (rxByte env s.xferCount) (hbs s.xferCount).1
    simp only [readFrameLengthAux, hc]
    refine ⟨(ih (mt_tx s)).1, ?_⟩
    rw [(ih (mt_tx s)).2]
    simp [mt_tx]
    omega

lemma determineInterfaceVersionAux_badsync (env : Env) (hbs : BadSync env) :
    ∀ t s, (determineInterfaceVersionAux env t s).1 = none ∧
      (determineInterfaceVersionAux env t s).2.xferCount = s.xferCount + t := by
  intro t
  induction t with
  | zero => intro s; exact ⟨rfl, rfl⟩
  | succ t ih =>
    intro s
    simp only [determineInterfaceVersionAux, if_neg (hbs s.xferCount).1]
    refine ⟨(ih (mt_tx s)).1, ?_⟩
    rw [(ih (mt_tx s)).2]
    simp [mt_tx]
    omega

lemma getReportInfoAux_badsync (env : Env) (hbs : BadSync env) (id : Nat) :
    ∀ t s, (getReportInfoAux env id t s).1 = none ∧
      (getReportInfoAux env id t s).2.xferCount = s.xferCount + t := by
  intro t
  induction t with
  | zero => intro s; exact ⟨rfl, rfl⟩
  | succ t ih =>
    intro s
    have hc := reportInfoCheck_badsync id (rxByte env s.xferCount) (hbs s.xferCount).1
    simp only [getReportInfoAux, hc]
    refine ⟨(ih (mt_tx s)).1, ?_⟩
    rw [(ih (mt_tx s)).2]
    simp [mt_tx]
    omega

lemma getReport_badsync (env : Env) (hbs : BadSync env) (id : Nat) (s : DriverState) :
    (getReport env id s).1 = none ∧ (getReport env id s).2.xferCount = s.xferCount + 4 := by
  have h := getReportInfoAux_badsync env hbs id 4 s
  rcases hg : getReportInfo env id s with ⟨o, s1⟩
  have ho : o = none := by
    have h1 := h.1
    rw [show getReportInfo env id s = getReportInfoAux env id 4 s from rfl] at hg
    rw [hg] at h1
    exact h1
  have hx : s1.xferCount = s.xferCount + 4 := by
    have h2 := h.2
    rw [show getReportInfo env id s = getReportInfoAux env id 4 s from rfl] at hg
    rw [hg] at h2
    exact h2
  subst ho
  simp only [getReport, hg]
  exact ⟨trivial, hx⟩

lemma txrxIn_byte0 (env : Env) (s : DriverState) (len : Nat) (hlen : 0 < len) :
    readByte (txrxIn env s len).inputPacket 0 = rxByte env s.xferCount 0 := by
  simp only [txrxIn, readByte, if_pos hlen]
  unfold rxByte
  omega

lemma readResultDataAux_badsync (env : Env) (hbs : BadSync env) (mp : Nat) (H : Int)
    (len : Nat) (hlen : 0 < len) :
    ∀ t s, (readResultDataAux env mp H len t s).1 = false ∧
      (readResultDataAux env mp H len t s).2.2.xferCount = s.xferCount + t := by
  intro t
  induction t with
  | zero => intro s; exact ⟨rfl, rfl⟩
  | succ t ih =>
    intro s
    have hc : readByte (txrxIn env s len).inputPacket 0 ≠ 0xAA := by
      rw [txrxIn_byte0 env s len hlen]
      exact (hbs s.xferCount).1
    simp only [readResultDataAux, if_pos hc]
    refine ⟨(ih (txrxIn env s len)).1, ?_⟩
    rw [(ih (txrxIn env s len)).2]
    simp [txrxIn]
    omega

lemma verifyUpload_badsync (env : Env) (hbs : BadSync env) (c : Nat) (s : DriverState) :
    verifyUpload env c s = (false, mt_tx s) := by
  unfold verifyUpload
  rw [if_pos (Or.inl (hbs s.xferCount).2)]

lemma uploadChunkAux_badsync (env : Env) (hbs : BadSync env) (c : Nat) :
    ∀ t s tries, (uploadChunkAux env c t s tries).1 = false ∧
      (uploadChunkAux env c t s tries).2.1 = tries + t ∧
      (uploadChunkAux env c t s tries).2.2.xferCount = s.xferCount + 2 * t := by
  intro t
  induction t with
  | zero => intro s tries; exact ⟨rfl, rfl, rfl⟩
  | succ t ih =>
    intro s tries
    simp only [uploadChunkAux, verifyUpload_badsync env hbs c (mt_tx s)]
    rw [if_neg (by decide : ¬ false = true)]
    refine ⟨(ih _ _).1, ?_, ?_⟩
    · rw [(ih (mt_tx (mt_tx s)) (tries + 1)).2.1]
      omega
    · rw [(ih (mt_tx (mt_tx s)) (tries + 1)).2.2]
      simp only [mt_tx]
      omega

lemma loadMainGo_badsync (env : Env) (hbs : BadSync env) (c : Nat) :
    ∀ t s tries, (loadMainGo env c t s tries).1 = false ∧
      (loadMainGo env c t s tries).2.1 = tries + t ∧
      (loadMainGo env c t s tries).2.2.xferCount = s.xferCount + 3 * t := by
  intro t
  induction t with
  | zero => intro s tries; exact ⟨rfl, rfl, rfl⟩
  | succ t ih =>
    intro s tries
    simp only [loadMainGo, verifyUpload_badsync env hbs c (mt_tx (sendBlankDataPacket s))]
    rw [if_neg (by decide : ¬ false = true)]
    refine ⟨(ih _ _).1, ?_, ?_⟩
    · rw [(ih (mt_tx (mt_tx (sendBlankDataPacket s))) (tries + 1)).2.1]
      omega
    · rw [(ih (mt_tx (mt_tx (sendBlankDataPacket s))) (tries + 1)).2.2]
      simp only [mt_tx, sendBlankDataPacket]
      omega

lemma loadASpeedFirmware_badsync (env : Env) (hbs : BadSync env) (fw : List Nat)
    (hfw : fw ≠ []) (s : DriverState) :
    (loadASpeedFirmware env fw s).1 = false ∧
    (loadASpeedFirmware env fw s).2.xferCount = s.xferCount + 10 := by
  rcases fw with _ | ⟨x, xs⟩
  · exact absurd rfl hfw
  have hu := uploadChunkAux_badsync env hbs
    (makeBootloaderChecksum 0x40000000 (x :: xs)) 5 s 0
  have hgo : loadASpeedGo env ((x :: xs).length + 1) (x :: xs) 0x40000000 s =
      (false, (uploadChunkAux env (makeBootloaderChecksum 0x40000000 (x :: xs)) 5 s 0).2.2) := by
    simp only [loadASpeedGo, List.isEmpty_cons, uploadChunk]
    rw [if_neg (by decide : ¬ false = true)]
    simp only [hu.1]
    rw [if_neg (by decide : ¬ false = true)]
  constructor
  · show (loadASpeedFirmware env (x :: xs) s).1 = false
    simp only [loadASpeedFirmware, hgo]
    rw [if_neg (by decide : ¬ false = true)]
  · show (loadASpeedFirmware env (x :: xs) s).2.xferCount = s.xferCount + 10
    simp only [loadASpeedFirmware, hgo]
    rw [if_neg (by decide : ¬ false = true)]
    exact hu.2.2

lemma loadMainFirmware_badsync (env : Env) (hbs : BadSync env) (fw : List Nat)
    (s : DriverState) :
    (loadMainFirmware env fw s).1 = false ∧ (loadMainFirmware env fw s).2.1 = 5 := by
  have hm := loadMainGo_badsync env hbs ((fw.map fun v => v % 256).sum) 5 s 0
  simp only [loadMainFirmware, hm.1]
  rw [if_neg (by decide : ¬ false = true)]
  exact ⟨rfl, hm.2.1⟩

/-- C4: against a transport whose every response has a bad sync byte, the
    interface-version, report-info, report-data, frame-length and frame-data
    queries each perform exactly 4 transfer attempts before reporting
    failure, and the firmware verification loops perform exactly 5
    `(transmit, delay, verify)` attempts for the first chunk (10 transfers)
    and exactly 5 attempts for the main image before the load aborts. -/
theorem C4_retry_bounds (env : Env) (hbs : BadSync env)
    (maxPacketSize minPressure id len c : Nat) (sensorHeight : Int)
    (s : DriverState) (fw : List Nat) (hfw : fw ≠ []) (hlen : 0 < len) :
    ((determineInterfaceVersion env s).1 = none ∧
      (determineInterfaceVersion env s).2.xferCount = s.xferCount + 4)
  ∧ ((getReportInfo env id s).1 = none ∧
      (getReportInfo env id s).2.xferCount = s.xferCount + 4)
  ∧ ((getReport env id s).1 = none ∧
      (getReport env id s).2.xferCount = s.xferCount + 4)
  ∧ ((readFrameLength env maxPacketSize s).1 = none ∧
      (readFrameLength env maxPacketSize s).2.xferCount = s.xferCount + 4)
  ∧ ((readResultData env minPressure sensorHeight len s).1 = false ∧
      (readResultData env minPressure sensorHeight len s).2.2.xferCount = s.xferCount + 4)
  ∧ ((uploadChunk env c s).1 = false ∧ (uploadChunk env c s).2.1 = 5 ∧
      (uploadChunk env c s).2.2.xferCount = s.xferCount + 10)
  ∧ ((loadASpeedFirmware env fw s).1 = false)
  ∧ ((loadMainFirmware env fw s).1 = false ∧ (loadMainFirmware env fw s).2.1 = 5) :=
  ⟨determineInterfaceVersionAux_badsync env hbs 4 s,
   getReportInfoAux_badsync env hbs id 4 s,
   getReport_badsync env hbs id s,
   readFrameLengthAux_badsync env hbs maxPacketSize 4 s,
   readResultDataAux_badsync env hbs minPressure sensorHeight len hlen 4 s,
   ⟨(uploadChunkAux_badsync env hbs c 5 s 0).1,
    (uploadChunkAux_badsync env hbs c 5 s 0).2.1,
    (uploadChunkAux_badsync env hbs c 5 s 0).2.2⟩,
   (loadASpeedFirmware_badsync env hbs fw hfw s).1,
   loadMainFirmware_badsync env hbs fw s⟩

/-- C4 witness: the empty transport (every byte reads 0) is a bad-sync
    stub; the version query fails and the main-firmware load uses exactly
    5 attempts. -/
theorem C4_retry_bounds_witness :
    (determineInterfaceVersion envZero stateZero).1 = none ∧
    (loadMainFirmware envZero [1] stateZero).2.1 = 5 := by
  have hbs : BadSync envZero := fun _ =>
    ⟨(by decide : (0 : Nat) ≠ 0xAA), (by decide : (0 : Nat) ≠ 0xD0)⟩
  exact ⟨(C4_retry_bounds envZero hbs 1000 100 0xD1 17 0 500 stateZero [1]
            (by decide) (by decide)).1.1,
         (C4_retry_bounds envZero hbs 1000 100 0xD1 17 0 500 stateZero [1]
            (by decide) (by decide)).2.2.2.2.2.2.2.2⟩

/-! ## Single-byte corruption of the 8-byte control frames -/

lemma frameLenCheck_accepts (mps : Nat) (b : Nat → Nat)
    (h : (frameLenCheck mps b).isSome = true) :
    b 0 = 0xAA ∧ (b 4 + b 5) % 65536 = b 6 * 256 + b 7 := by
  unfold frameLenCheck at h
  by_cases h0 : b 0 ≠ 0xAA
  · rw [if_pos h0] at h
    simp at h
  · push_neg at h0
    by_cases h1 : (b 4 + b 5) % 65536 ≠ b 6 * 256 + b 7
    · rw [if_neg (not_not_intro h0), if_pos h1] at h
      simp at h
    · push_neg at h1
      exact ⟨h0, h1⟩

lemma frameLenCheck_none_of_cksum (mps : Nat) (b : Nat → Nat)
    (h : (b 4 + b 5) % 65536 ≠ b 6 * 256 + b 7) :
    frameLenCheck mps b = none := by
  unfold frameLenCheck
  by_cases h0 : b 0 ≠ 0xAA
  · rw [if_pos h0]
  · rw [if_neg h0, if_pos h]

lemma reportInfoCheck_accepts (id : Nat) (b : Nat → Nat)
    (h : (reportInfoCheck id b).isSome = true) :
    b 0 = 0xAA ∧ b 6 * 256 + b 7 = (id + b 4 + b 5) % 65536 := by
  unfold reportInfoCheck at h
  by_cases h0 : b 0 ≠ 0xAA
  · rw [if_pos h0] at h
    simp at h
  · push_neg at h0
    by_cases h1 : b 6 * 256 + b 7 ≠ (id + b 4 + b 5) % 65536
    · rw [if_neg (not_not_intro h0), if_pos h1] at h
      simp at h
    · push_neg at h1
      exact ⟨h0, h1⟩

lemma reportInfoCheck_none_of_cksum (id : Nat) (b : Nat → Nat)
    (h : b 6 * 256 + b 7 ≠ (id + b 4 + b 5) % 65536) :
    reportInfoCheck id b = none := by
  unfold reportInfoCheck
  by_cases h0 : b 0 ≠ 0xAA
  · rw [if_pos h0]
  · rw [if_neg h0, if_pos h]

/-- C5 (amended): for the two 8-byte control-frame validations, corrupting
    any byte the validation covers (the sync byte 0 or the checksummed
    bytes 4..7) of an accepted frame is always detected: the corrupted frame
    is rejected.  Bytes 1..3 are not covered by any check (see the
    counterexample). -/
theorem C5_corruption_amended (maxPacketSize id : Nat) (b : Nat → Nat)
    (hb : ∀ j, b j < 256) (i v : Nat)
    (hi : i = 0 ∨ i = 4 ∨ i = 5 ∨ i = 6 ∨ i = 7) (hv : v < 256) (hne : v ≠ b i) :
    ((frameLenCheck maxPacketSize b).isSome = true →
      frameLenCheck maxPacketSize (corrupt b i v) = none)
  ∧ ((reportInfoCheck id b).isSome = true →
      reportInfoCheck id (corrupt b i v) = none) := by
  have h4 := hb 4
  have h5 := hb 5
  have h6 := hb 6
  have h7 := hb 7
  constructor
  · intro hacc
    obtain ⟨h0, h1⟩ := frameLenCheck_accepts maxPacketSize b hacc
    rcases hi with hi | hi | hi | hi | hi <;> subst hi
    · refine frameLenCheck_badsync _ _ ?_
      have e : corrupt b 0 v 0 = v := by simp [corrupt]
      rw [e]
      omega
    · refine frameLenCheck_none_of_cksum _ _ ?_
      have e4 : corrupt b 4 v 4 = v := by simp [corrupt]
      have e5 : corrupt b 4 v 5 = b 5 := by simp [corrupt]
      have e6 : corrupt b 4 v 6 = b 6 := by simp [corrupt]
      have e7 : corrupt b 4 v 7 = b 7 := by simp [corrupt]
      rw [e4, e5, e6, e7]
      omega
    · refine frameLenCheck_none_of_cksum _ _ ?_
      have e4 : corrupt b 5 v 4 = b 4 := by simp [corrupt]
      have e5 : corrupt b 5 v 5 = v := by simp [corrupt]
      have e6 : corrupt b 5 v 6 = b 6 := by simp [corrupt]
      have e7 : corrupt b 5 v 7 = b 7 := by simp [corrupt]
      rw [e4, e5, e6, e7]
      omega
    · refine frameLenCheck_none_of_cksum _ _ ?_
      have e4 : corrupt b 6 v 4 = b 4 := by simp [corrupt]
      have e5 : corrupt b 6 v 5 = b 5 := by simp [corrupt]
      have e6 : corrupt b 6 v 6 = v := by simp [corrupt]
      have e7 : corrupt b 6 v 7 = b 7 := by simp [corrupt]
      rw [e4, e5, e6, e7]
      omega
    · refine frameLenCheck_none_of_cksum _ _ ?_
      have e4 : corrupt b 7 v 4 = b 4 := by simp [corrupt]
      have e5 : corrupt b 7 v 5 = b 5 := by simp [corrupt]
      have e6 : corrupt b 7 v 6 = b 6 := by simp [corrupt]
      have e7 : corrupt b 7 v 7 = v := by simp [corrupt]
      rw [e4, e5, e6, e7]
      omega
  · intro hacc
    obtain ⟨h0, h1⟩ := reportInfoCheck_accepts id b hacc
    rcases hi with hi | hi | hi | hi | hi <;> subst hi
    · refine reportInfoCheck_badsync _ _ ?_
      have e : corrupt b 0 v 0 = v := by simp [corrupt]
      rw [e]
      omega
    · refine reportInfoCheck_none_of_cksum _ _ ?_
      have e4 : corrupt b 4 v 4 = v := by simp [corrupt]
      have e5 : corrupt b 4 v 5 = b 5 := by simp [corrupt]
      have e6 : corrupt b 4 v 6 = b 6 := by simp [corrupt]
      have e7 : corrupt b 4 v 7 = b 7 := by simp [corrupt]
      rw [e4, e5, e6, e7]
      omega
    · refine reportInfoCheck_none_of_cksum _ _ ?_
      have e4 : corrupt b 5 v 4 = b 4 := by simp [corrupt]
      have e5 : corrupt b 5 v 5 = v := by simp [corrupt]
      have e6 : corrupt b 5 v 6 = b 6 := by simp [corrupt]
      have e7 : corrupt b 5 v 7 = b 7 := by simp [corrupt]
      rw [e4, e5, e6, e7]
      omega
    · refine reportInfoCheck_none_of_cksum _ _ ?_
      have e4 : corrupt b 6 v 4 = b 4 := by simp [corrupt]
      have e5 : corrupt b 6 v 5 = b 5 := by simp [corrupt]
      have e6 : corrupt b 6 v 6 = v := by simp [corrupt]
      have e7 : corrupt b 6 v 7 = b 7 := by simp [corrupt]
      rw [e4, e5, e6, e7]
      omega
    · refine reportInfoCheck_none_of_cksum _ _ ?_
      have e4 : corrupt b 7 v 4 = b 4 := by simp [corrupt]
      have e5 : corrupt b 7 v 5 = b 5 := by simp [corrupt]
      have e6 : corrupt b 7 v 6 = b 6 := by simp [corrupt]
      have e7 : corrupt b 7 v 7 = v := by simp [corrupt]
      rw [e4, e5, e6, e7]
      omega

/-- C5 counterexample: an accepted frame stays accepted after byte 1 is
    flipped from 0 to 7 — the validation never reads bytes 1..3, so the
    claim that corrupting any single byte is detected is false. -/
theorem C5_corruption_cex :
    frameLenCheck 1000 bC5 = some 0 ∧
    frameLenCheck 1000 (corrupt bC5 1 7) = some 0 ∧
    reportInfoCheck 0 bC5 = some (0, 0) ∧
    reportInfoCheck 0 (corrupt bC5 1 7) = some (0, 0) := by decide

/-- C5 witness: corrupting checksummed byte 4 of an accepted frame is
    rejected by both validations. -/
theorem C5_corruption_amended_witness :
    (frameLenCheck 1000 bC5).isSome = true ∧
    (reportInfoCheck 0 bC5).isSome = true ∧
    frameLenCheck 1000 (corrupt bC5 4 1) = none ∧
    reportInfoCheck 0 (corrupt bC5 4 1) = none :=
  ⟨by decide, by decide,
   (C5_corruption_amended 1000 0 bC5 (fun j => by unfold bC5; split <;> decide) 4 1
      (by decide) (by decide) (by decide)).1 (by decide),
   (C5_corruption_amended 1000 0 bC5 (fun j => by unfold bC5; split <;> decide) 4 1
      (by decide) (by decide) (by decide)).2 (by decide)⟩

/-! ## Geometry -/

/-- C6 (amended): for raw fields that do not underflow (`raw_x ≤ 9000`,
    `raw_y ≤ 13850`) the geometry is the exact integer formula
    `(9000 − raw_x) * 84 / 73` (truncating division), giving 0 at the
    maximum raw values and 10356 at `raw_x = 0`; the arithmetic is 32-bit
    unsigned, so larger raw values wrap around instead (see the
    counterexample). -/
theorem C6_geometry_amended (rawX rawY : Nat) (hx : rawX ≤ 9000) (hy : rawY ≤ 13850) :
    sensorWidth rawX = (9000 - rawX) * 84 / 73
  ∧ sensorHeightOf rawY = (13850 - rawY) * 84 / 73
  ∧ sensorWidth 9000 = 0 ∧ sensorHeightOf 13850 = 0 ∧ sensorWidth 0 = 10356 := by
  refine ⟨?_, ?_, by decide, by decide, by decide⟩
  · unfold sensorWidth
    have h1 : rawX % 4294967296 = rawX := Nat.mod_eq_of_lt (by omega)
    rw [h1]
    have h2 : (9000 + (4294967296 - rawX)) % 4294967296 = 9000 - rawX := by omega
    rw [h2]
    have h3 : (9000 - rawX) * 84 % 4294967296 = (9000 - rawX) * 84 :=
      Nat.mod_eq_of_lt (by omega)
    rw [h3]
  · unfold sensorHeightOf
    have h1 : rawY % 4294967296 = rawY := Nat.mod_eq_of_lt (by omega)
    rw [h1]
    have h2 : (13850 + (4294967296 - rawY)) % 4294967296 = 13850 - rawY := by omega
    rw [h2]
    have h3 : (13850 - rawY) * 84 % 4294967296 = (13850 - rawY) * 84 :=
      Nat.mod_eq_of_lt (by omega)
    rw [h3]

/-- C6 counterexample: at `raw_x = 9001` the driver's 32-bit unsigned
    arithmetic yields 58835167, while exact integer arithmetic with
    truncating division yields -1 — the claim's "exact integer arithmetic"
    does not hold for raw fields above 9000. -/
theorem C6_geometry_cex :
    sensorWidth 9001 = 58835167 ∧ sensorWidthSpec 9001 = -1 ∧
    (sensorWidth 9001 : Int) ≠ sensorWidthSpec 9001 := by decide

/-- C6 witness: the amended formula at the extreme raw values. -/
theorem C6_geometry_amended_witness :
    sensorWidth 9000 = (9000 - 9000) * 84 / 73 ∧
    sensorHeightOf 13850 = (13850 - 13850) * 84 / 73 :=
  ⟨(C6_geometry_amended 9000 13850 (by decide) (by decide)).1,
   (C6_geometry_amended 9000 13850 (by decide) (by decide)).2.1⟩

/-! ## Bootloader chunking -/

lemma aspeedChunksGo_le (fuel : Nat) :
    ∀ address left : Nat,
      (aspeedChunksGo fuel address left).all (fun c => decide (c.2 ≤ 1016)) = true := by
  induction fuel with
  | zero => intro address left; rfl
  | succ fuel ih =>
    intro address left
    simp only [aspeedChunksGo]
    by_cases h0 : left = 0
    · rw [if_pos h0]
      rfl
    · rw [if_neg h0]
      by_cases h1 : 1016 < left
      · rw [if_pos h1]
        simp only [List.all_cons, ih, Bool.and_true]
        rfl
      · rw [if_neg h1]
        simp only [List.all_cons, List.all_nil, Bool.and_true, decide_eq_true_eq]
        omega

/-- C7: the first-stage loader splits a 3058-byte image (1016×3+10) into
    exactly 4 chunks starting at the fixed base address `0x40000000`, the
    last of length 10, each chunk's destination address exceeding the
    previous one's by the previous chunk's length; and every chunk of any
    image is at most 1016 bytes. -/
theorem C7_bootloader_chunking :
    aspeedChunks 0x40000000 3058 =
      [(0x40000000, 1016), (0x40000000 + 1016, 1016),
       (0x40000000 + 2032, 1016), (0x40000000 + 3048, 10)]
  ∧ (aspeedChunks 0x40000000 3058).length = 4
  ∧ ∀ address left : Nat,
      (aspeedChunks address left).all (fun c => decide (c.2 ≤ 1016)) = true :=
  ⟨by decide, by decide, fun address left => aspeedChunksGo_le left address left⟩

/-! ## End-to-end frame-read scenario -/

/-- C8 (amended): in the spec's end-to-end scenario (frame length 16, one
    finger at offset 12 with `force_minor = 150`, floor 100, every field
    not mentioned — in particular `size_minor` — zero, with the finger
    bytes beyond the 17 received bytes coming from the pre-existing
    receive buffer), the driver emits exactly one positional observation
    with minor force 50, one end-of-contact marker, one legacy single-touch
    report whose contact-active flag is FALSE (the flag is derived from
    `size_minor`, which is zero, not from force), and one sync marker; the
    read succeeds and flips the poll token. -/
theorem C8_end_to_end_amended :
    (readFrame env8 1000 100 500 s8).1 = 1
  ∧ (readFrame env8 1000 100 500 s8).2.1 =
      [Event.touchMajor 0, Event.touchMinor 50, Event.widthMajor 0, Event.widthMinor 0,
       Event.orient 16384, Event.trackingId 0, Event.posX 1, Event.posY 500,
       Event.mtSync, Event.absX 1, Event.absY 500, Event.btnTouch false, Event.sync]
  ∧ (readFrame env8 1000 100 500 s8).2.2.curNOP = 0x65 := by decide

/-- C8 counterexample: in the scenario as stated, no contact-active = true
    report is emitted — the `BTN_TOUCH` report carries false because it is
    derived from `size_minor` (zero here), contradicting the claimed
    "one legacy contact-active = true report". -/
theorem C8_end_to_end_cex :
    (readFrame env8 1000 100 500 s8).1 = 1
  ∧ Event.btnTouch true ∉ (readFrame env8 1000 100 500 s8).2.1
  ∧ Event.btnTouch false ∈ (readFrame env8 1000 100 500 s8).2.1 := by decide

/-! ## The pressure-floor tunable -/

/-- C9: a write parsing to a value 0–254 stores it as the new pressure
    floor and returns 1; a value ≥ 255 is rejected (returns 0) with the
    stored floor unchanged. -/
theorem C9_min_pressure_store (cur v : Nat) :
    (v ≤ 254 → zephyr_min_pressure_store cur (some v) = (v, 1))
  ∧ (255 ≤ v → zephyr_min_pressure_store cur (some v) = (cur, 0)) := by
  constructor
  · intro h
    simp only [zephyr_min_pressure_store]
    rw [if_neg (by omega), Nat.mod_eq_of_lt (by omega)]
  · intro h
    simp only [zephyr_min_pressure_store]
    rw [if_pos h]

/-- C9 witness: 50 is stored, 300 is rejected leaving the floor at 100. -/
theorem C9_min_pressure_store_witness :
    zephyr_min_pressure_store 100 (some 50) = (50, 1) ∧
    zephyr_min_pressure_store 100 (some 300) = (100, 0) :=
  ⟨(C9_min_pressure_store 100 50).1 (by decide),
   (C9_min_pressure_store 100 300).2 (by decide)⟩

end Zephyr
